import Mathlib

/-!
Shallow embedding of the NovoG93/signer PodCertificateRequest signing
controller (Go).  Durations and timestamps are modelled as `Int`
nanoseconds, matching Go's `time.Duration` / `time.Time` arithmetic used by
the code (no overflow occurs for the representable inputs the controller
sees).  External library calls (x509 parsing, certificate creation, PEM
and base64 codecs, cryptographic verification, the Kubernetes status
store) are parameters of the embedding; everything the repository itself
computes is embedded directly from the source.
-/

namespace Signer

/-- Go `time.Second` in nanoseconds. -/
def nsPerSecond : Int := 1000000000

/-- Go `time.Hour` in nanoseconds (`minValidity` in controller.go). -/
def hourNs : Int := 3600 * nsPerSecond

/-- Go `30 * time.Minute` in nanoseconds (`minRefresh` in controller.go). -/
def halfHourNs : Int := 1800 * nsPerSecond

/-- The duration fields of the controller `Config` consumed by
`Reconcile` (controller.go lines 96-103): `CertValidity` and
`CertRefreshBefore`, both Go `time.Duration`s. -/
structure Config where
  certValidity : Int
  certRefreshBefore : Int
deriving DecidableEq, Repr

/-- The timing values computed by `Reconcile` for one issuance:
`now` (= notBefore), `notAfter`, `refreshAt`, together with the effective
`validity` and `refreshBefore` durations after floors and cap. -/
structure Timings where
  notBefore : Int
  notAfter : Int
  beginRefreshAt : Int
  validity : Int
  refreshBefore : Int
deriving DecidableEq, Repr

/-- The timing computation of `SignerReconciler.Reconcile`
(controller.go lines 92-133), embedded step by step:
defaults 1h/30m, config overrides only when positive, the 1h validity
floor, the 30m refresh floor, the `MaxExpirationSeconds` cap, and the
clamp of `refreshAt` up to `now`. -/
def computeTimings (config : Option Config) (maxExpirationSeconds : Option Int)
    (now : Int) : Timings :=
  let validity0 : Int := hourNs
  let refreshBefore0 : Int := halfHourNs
  let validity1 : Int :=
    match config with
    | some c => if 0 < c.certValidity then c.certValidity else validity0
    | none => validity0
  let refreshBefore1 : Int :=
    match config with
    | some c => if 0 < c.certRefreshBefore then c.certRefreshBefore else refreshBefore0
    | none => refreshBefore0
  let validity2 : Int := if validity1 < hourNs then hourNs else validity1
  let refreshBefore2 : Int :=
    if refreshBefore1 < halfHourNs then halfHourNs else refreshBefore1
  let validity3 : Int :=
    match maxExpirationSeconds with
    | some m =>
        let maxValidity := m * nsPerSecond
        if maxValidity < validity2 then maxValidity else validity2
    | none => validity2
  let notAfter : Int := now + validity3
  let refreshAt0 : Int := notAfter - refreshBefore2
  let refreshAt : Int := if refreshAt0 < now then now else refreshAt0
  { notBefore := now, notAfter := notAfter, beginRefreshAt := refreshAt,
    validity := validity3, refreshBefore := refreshBefore2 }

/-- The configured validity duration a given `Config` option carries into
`Reconcile`: the `CertValidity` field when a config is present, otherwise
the 1h default (controller.go lines 93, 96-99). -/
def configuredValidity (config : Option Config) : Int :=
  match config with
  | some c => c.certValidity
  | none => hourNs

/-- The configured refresh lead a given `Config` option carries into
`Reconcile`: the `CertRefreshBefore` field when a config is present,
otherwise the 30m default (controller.go lines 94, 100-102). -/
def configuredRefreshBefore (config : Option Config) : Int :=
  match config with
  | some c => c.certRefreshBefore
  | none => halfHourNs

/-- Result of Go's `x509.ParsePKIXPublicKey` as used by the controller:
an RSA key, an ECDSA key, or a key of some other type (the `default`
branch of the `switch` in controller.go lines 73-81).  The `id` field
stands for the opaque key material. -/
inductive PublicKey
  | rsa (id : Nat)
  | ec (id : Nat)
  | other (id : Nat)
deriving DecidableEq, Repr

/-- Whether the parsed key is an `*rsa.PublicKey` (the type switch used
again at controller.go line 153). -/
def PublicKey.isRSA : PublicKey → Bool
  | .rsa _ => true
  | _ => false

/-- Go `x509.KeyUsageDigitalSignature` (bit 0 of the KeyUsage flags). -/
def keyUsageDigitalSignature : Nat := 1

/-- Go `x509.KeyUsageKeyEncipherment` (bit 2 of the KeyUsage flags). -/
def keyUsageKeyEncipherment : Nat := 4

/-- Go `x509.ExtKeyUsageServerAuth`. -/
def extKeyUsageServerAuth : Nat := 1

/-- Go `x509.ExtKeyUsageClientAuth`. -/
def extKeyUsageClientAuth : Nat := 2

/-- The `x509.Certificate` template fields the controller fills in
(controller.go lines 138-155). -/
structure CertTemplate where
  serialNumber : Nat
  subjectCommonName : String
  dnsNames : List String
  notBefore : Int
  notAfter : Int
  extKeyUsage : List Nat
  keyUsage : Nat
deriving DecidableEq, Repr

/-- Template construction from controller.go lines 136-155: DNS name
`"<podName>.pod.cluster.local"` used as CN and sole SAN, ExtKeyUsage
`[clientAuth, serverAuth]`, KeyUsage `digitalSignature`, with
`keyEncipherment` or-ed in exactly when the key is RSA. -/
def buildTemplate (podName : String) (serialNumber : Nat) (t : Timings)
    (pub : PublicKey) : CertTemplate :=
  let dnsName := podName ++ ".pod.cluster.local"
  let base : CertTemplate :=
    { serialNumber := serialNumber
      subjectCommonName := dnsName
      dnsNames := [dnsName]
      notBefore := t.notBefore
      notAfter := t.notAfter
      extKeyUsage := [extKeyUsageClientAuth, extKeyUsageServerAuth]
      keyUsage := keyUsageDigitalSignature }
  if pub.isRSA then
    { base with keyUsage := base.keyUsage ||| keyUsageKeyEncipherment }
  else base

/-- A `metav1.Condition` as written by the controller (type, status,
reason, message, last transition time). -/
structure Condition where
  type : String
  status : Bool
  reason : String
  message : String
  lastTransitionTime : Int
deriving DecidableEq, Repr

/-- The PodCertificateRequest status fields touched by the controller. -/
structure PCRStatus where
  certificateChain : String
  notBefore : Option Int
  notAfter : Option Int
  beginRefreshAt : Option Int
  conditions : List Condition
deriving DecidableEq, Repr

/-- The PodCertificateRequest spec fields read by the controller. -/
structure PCRSpec where
  signerName : String
  podName : String
  nodeName : String
  pkixPublicKey : List Nat
  proofOfPossession : String
  maxExpirationSeconds : Option Int
deriving DecidableEq, Repr

/-- A PodCertificateRequest as seen by one reconciliation. -/
structure PCR where
  spec : PCRSpec
  status : PCRStatus
deriving DecidableEq, Repr

/-- Outcome of one `r.Status().Update` call against the API server:
success, an optimistic-concurrency conflict, or some other error. -/
inductive UpdateOutcome
  | success
  | conflict
  | otherError
deriving DecidableEq, Repr

/-- `retry.DefaultRetry.Steps` from client-go (`wait.Backoff{Steps: 5, ...}`). -/
def defaultRetrySteps : Nat := 5

/-- The loop of `retry.OnError` / `wait.ExponentialBackoff`: run the
attempt function up to `n` more times starting at attempt index `i`;
stop on success (`none`) or on a non-conflict error; keep retrying on
conflict; once the step budget is exhausted the last conflict error is
returned.  The returned `Nat` counts the attempts performed. -/
def retryLoop (f : Nat → UpdateOutcome) : Nat → Nat → Option UpdateOutcome × Nat
  | 0, _ => (some .conflict, 0)
  | n + 1, i =>
    match f i with
    | .success => (none, 1)
    | .otherError => (some .otherError, 1)
    | .conflict =>
        let r := retryLoop f n (i + 1)
        (r.1, r.2 + 1)

/-- `retry.RetryOnConflict(retry.DefaultRetry, fn)` as used at
controller.go lines 199-201: retry the status update only on conflict
errors, at most `DefaultRetry.Steps = 5` attempts, returning `none` on
success and the final error otherwise, together with the number of
attempts made. -/
def retryOnConflict (f : Nat → UpdateOutcome) : Option UpdateOutcome × Nat :=
  retryLoop f defaultRetrySteps 0

/-- The Go error values `Reconcile` can return (controller.go):
public-key parse failure, unsupported key type, nil CA, certificate
creation failure, and the two status-update failure kinds. -/
inductive GoError
  | parsePublicKey
  | unsupportedKeyType
  | caNotInitialized
  | signingFailed
  | conflict
  | updateOther
deriving DecidableEq, Repr

/-- `ctrl.Result`: only the `Requeue` flag is ever set by this code. -/
structure CtrlResult where
  requeue : Bool
deriving DecidableEq, Repr

/-- The external collaborators of one `Reconcile` call: the x509 public
key parser, certificate creation (`none` = signing error), the PEM
encoder, the wall clock, the random serial number, and the outcomes of
the status-update calls (one function for the retried success-path
write, one outcome for the single failure-path write). -/
structure ReconcileEnv where
  parseKey : List Nat → Option PublicKey
  createCertificate : CertTemplate → PublicKey → Option (List Nat)
  pemEncodeCertificate : List Nat → String
  now : Int
  serialNumber : Nat
  successWriteAttempts : Nat → UpdateOutcome
  failedWriteOutcome : UpdateOutcome

/-- Everything observable about one `Reconcile` call: the returned
`(ctrl.Result, error)` pair, the final in-memory PCR, how many status
updates were attempted and how many were accepted by the store, the
template passed to `x509.CreateCertificate` (if reached), whether
`CreateCertificate` was invoked, and the labels of the metric counter
increments. -/
structure ReconcileResult where
  result : CtrlResult
  error : Option GoError
  pcr : PCR
  statusWriteAttempts : Nat
  persistedWrites : List PCRStatus
  templateUsed : Option (CertTemplate × PublicKey)
  signAttempted : Bool
  failedCounterIncrements : List String
  issuedCounterIncrements : List String

/-- `validity.String()` used as the issued-counter label
(controller.go lines 214-215), kept abstract as the decimal nanosecond
count. -/
def validityLabel (v : Int) : String := toString v

/-- `setFailedCondition` (controller.go lines 221-240) combined with the
calling pattern of its four call sites: set the `Issued=False` condition
with the given reason on the in-memory PCR, attempt exactly one
unretried status update whose error is only logged, increment the
reason-labelled failure counter, and let `Reconcile` return the
originating error with an empty `ctrl.Result`. -/
def setFailedConditionResult (env : ReconcileEnv) (pcr : PCR)
    (reason message : String) (origErr : GoError)
    (templateUsed : Option (CertTemplate × PublicKey)) (signAttempted : Bool) :
    ReconcileResult :=
  let pcr' : PCR :=
    { pcr with status :=
        { pcr.status with conditions :=
            [{ type := "Issued", status := false, reason := reason,
               message := message, lastTransitionTime := env.now }] } }
  { result := { requeue := false }
    error := some origErr
    pcr := pcr'
    statusWriteAttempts := 1
    persistedWrites :=
      if env.failedWriteOutcome = .success then [pcr'.status] else []
    templateUsed := templateUsed
    signAttempted := signAttempted
    failedCounterIncrements := [reason]
    issuedCounterIncrements := [] }

/-- `SignerReconciler.Reconcile` (controller.go lines 34-218) after the
initial `Get` has produced `pcr`: signer-name filter, already-signed
filter, public-key parse and type check, timing computation, template
construction, nil-CA check, certificate creation, status mutation, and
the conflict-retried status update with its requeue-on-conflict return. -/
def reconcile (signerName : String) (config : Option Config)
    (caInitialized : Bool) (env : ReconcileEnv) (pcr : PCR) : ReconcileResult :=
  let noop : ReconcileResult :=
    { result := { requeue := false }, error := none, pcr := pcr,
      statusWriteAttempts := 0, persistedWrites := [], templateUsed := none,
      signAttempted := false, failedCounterIncrements := [],
      issuedCounterIncrements := [] }
  if pcr.spec.signerName ≠ signerName then
    noop
  else if 0 < pcr.status.certificateChain.length then
    noop
  else
    match env.parseKey pcr.spec.pkixPublicKey with
    | none =>
        setFailedConditionResult env pcr "InvalidPublicKey"
          "Failed to parse public key" .parsePublicKey none false
    | some pub =>
        match pub with
        | .other _ =>
            setFailedConditionResult env pcr "UnsupportedKeyType"
              "unsupported public key type" .unsupportedKeyType none false
        | _ =>
            let t := computeTimings config pcr.spec.maxExpirationSeconds env.now
            let template := buildTemplate pcr.spec.podName env.serialNumber t pub
            if ¬ caInitialized then
              setFailedConditionResult env pcr "SigningFailed"
                "CA not initialized" .caNotInitialized none false
            else
              match env.createCertificate template pub with
              | none =>
                  setFailedConditionResult env pcr "SigningFailed"
                    "Failed to create certificate" .signingFailed
                    (some (template, pub)) true
              | some certBytes =>
                  let certPEM := env.pemEncodeCertificate certBytes
                  let pcr' : PCR :=
                    { pcr with status :=
                        { certificateChain := certPEM
                          notBefore := some t.notBefore
                          notAfter := some t.notAfter
                          beginRefreshAt := some t.beginRefreshAt
                          conditions :=
                            [{ type := "Issued", status := true,
                               reason := "IssuedByGoController",
                               message := "Signed by NovoG93 Signer Controller",
                               lastTransitionTime := env.now }] } }
                  let retried := retryOnConflict env.successWriteAttempts
                  let persisted : List PCRStatus :=
                    if retried.1 = none then [pcr'.status] else []
                  match retried.1 with
                  | some .conflict =>
                      { result := { requeue := true }, error := some .conflict,
                        pcr := pcr', statusWriteAttempts := retried.2,
                        persistedWrites := persisted,
                        templateUsed := some (template, pub),
                        signAttempted := true,
                        failedCounterIncrements := [],
                        issuedCounterIncrements := [] }
                  | some _ =>
                      { result := { requeue := false }, error := some .updateOther,
                        pcr := pcr', statusWriteAttempts := retried.2,
                        persistedWrites := persisted,
                        templateUsed := some (template, pub),
                        signAttempted := true,
                        failedCounterIncrements := [],
                        issuedCounterIncrements := [] }
                  | none =>
                      { result := { requeue := false }, error := none,
                        pcr := pcr', statusWriteAttempts := retried.2,
                        persistedWrites := persisted,
                        templateUsed := some (template, pub),
                        signAttempted := true,
                        failedCounterIncrements := [],
                        issuedCounterIncrements := [validityLabel t.validity] }

/-- The parameters of one reconciliation trigger: controller identity
and configuration plus that trigger's external-world behavior. -/
structure ReconcileParams where
  signerName : String
  config : Option Config
  caInitialized : Bool
  env : ReconcileEnv

/-- Repeated redelivery of the same request: fold any sequence of
reconciliation triggers over the in-memory PCR, each seeing the PCR the
previous one left behind. -/
def reconcileIter (steps : List ReconcileParams) (pcr : PCR) : PCR :=
  steps.foldl
    (fun p s => (reconcile s.signerName s.config s.caInitialized s.env p).pcr) pcr

/-- The resource store holding the PCR status subresource, reduced to
its optimistic-concurrency token: the current resource version. -/
structure Store where
  version : Nat
deriving DecidableEq, Repr

/-- One `Update` call: the API server accepts the write exactly when the
submitted resource version matches the store's current version. -/
def updateWith (store : Store) (rv : Nat) : UpdateOutcome :=
  if rv = store.version then .success else .conflict

/-- The attempt closure the code passes to `retry.RetryOnConflict`
(controller.go lines 199-201): `func() error { return
r.Status().Update(ctx, &pcr) }` — every attempt resubmits the same
in-memory `pcr`, so every attempt carries the resource version `rv`
captured by the initial `Get`, never a refreshed one. -/
def codeAttempts (store : Store) (rv : Nat) : Nat → UpdateOutcome :=
  fun _ => updateWith store rv

/-- Modelled from the spec: "on a conflicting concurrent update, the
write is retried with the freshest resource version".  The repository
has no code that refetches between attempts, so this attempt function
follows the spec's words: the first attempt submits the captured
version `rv`, every retry resubmits with the store's current (freshest)
resource version. -/
def freshAttempts (store : Store) (rv : Nat) : Nat → UpdateOutcome :=
  fun i => if i = 0 then updateWith store rv else updateWith store store.version

/-- The error values of `validateProofOfPossession` (historical
reconciler, src/unnamed/part_003 lines 323-364), one per `fmt.Errorf`
site. -/
inductive POPError
  | emptyProofOfPossession
  | decodeError
  | emptySignature
  | rsaVerificationFailed
  | ecdsaInvalidLength
  | ecdsaVerificationFailed
  | unsupportedKeyType
deriving DecidableEq, Repr

/-- The external library functions `validateProofOfPossession` calls:
Go's `base64.StdEncoding.DecodeString`, `sha256.Sum256`,
`rsa.VerifyPKCS1v15` (over a SHA-256 digest) and `ecdsa.Verify`. -/
structure POPOracle where
  base64Decode : String → Option (List Nat)
  sha256 : List Nat → List Nat
  rsaVerifyPKCS1v15 : Nat → List Nat → List Nat → Bool
  ecdsaVerify : Nat → List Nat → Nat → Nat → Bool

/-- The value of a big-endian byte string as a natural number, i.e. Go's
`new(big.Int).SetBytes`. -/
def beNat (bytes : List Nat) : Nat :=
  bytes.foldl (fun acc b => acc * 256 + b) 0

/-- A natural number written as exactly `w` big-endian bytes (the
fixed-width padded encoding of one half of a raw ECDSA signature). -/
def padBE (w : Nat) (n : Nat) : List Nat :=
  (List.range w).reverse.map (fun i => n / 256 ^ i % 256)

/-- `validateProofOfPossession` (src/unnamed/part_003 lines 323-364):
reject an empty proof string, base64-decode it, reject an empty decoded
signature, hash the raw PKIX public-key bytes with SHA-256, then verify
per key family — RSA via PKCS#1 v1.5 over the digest, ECDSA by splitting
the signature into two equal big-endian halves `(r, s)` (rejecting odd
lengths), any other key type is unsupported. -/
def validateProofOfPossession (o : POPOracle) (popStr : String)
    (pubKey : PublicKey) (pkixPublicKeyBytes : List Nat) : Option POPError :=
  if popStr = "" then some .emptyProofOfPossession
  else
    match o.base64Decode popStr with
    | none => some .decodeError
    | some signature =>
        if signature.length = 0 then some .emptySignature
        else
          let hash := o.sha256 pkixPublicKeyBytes
          match pubKey with
          | .rsa k =>
              if o.rsaVerifyPKCS1v15 k hash signature then none
              else some .rsaVerificationFailed
          | .ec k =>
              if signature.length % 2 ≠ 0 then some .ecdsaInvalidLength
              else
                let half := signature.length / 2
                let r := beNat (signature.take half)
                let s := beNat (signature.drop half)
                if o.ecdsaVerify k hash r s then none
                else some .ecdsaVerificationFailed
          | .other _ => some .unsupportedKeyType

/-- The name/namespace identity of a Kubernetes object carried by a
watch event. -/
structure ObjectMeta where
  name : String
  namespaceName : String
deriving DecidableEq, Repr

/-- The events the secret watch delivers: create, update (old and new
object), delete. -/
inductive SecretEvent
  | create (obj : ObjectMeta)
  | update (objOld objNew : ObjectMeta)
  | delete (obj : ObjectMeta)
deriving DecidableEq, Repr

/-- The CA secret identity configured for the watcher. -/
structure WatcherConfig where
  caSecretName : String
  caSecretNamespace : String
deriving DecidableEq, Repr

/-- The `predicate.Funcs` event filter installed by
`setupSecretWatcherFunc` (src/unnamed/part_006 lines 33-45):
create/update events pass exactly when the (new) object's name and
namespace equal the configured CA secret identity; `DeleteFunc` returns
`false` unconditionally. -/
def secretWatcherFilter (cfg : WatcherConfig) : SecretEvent → Bool
  | .create o => o.name = cfg.caSecretName ∧ o.namespaceName = cfg.caSecretNamespace
  | .update _ oNew =>
      oNew.name = cfg.caSecretName ∧ oNew.namespaceName = cfg.caSecretNamespace
  | .delete _ => false

/-- The CA pair held by `CAHelper`, abstracted to an opaque identifier. -/
structure CAState where
  caId : Nat
deriving DecidableEq, Repr

/-- One watch event processed by the filtered `SecretReconciler`
(src/unnamed/part_006 lines 128-141): events passing the filter trigger
`LoadFromSecret`, which replaces the active CA only when the load
succeeds (`loadResult = some _`); filtered-out events never touch the
CA. -/
def processSecretEvent (cfg : WatcherConfig) (loadResult : Option CAState)
    (ca : CAState) (ev : SecretEvent) : CAState :=
  if secretWatcherFilter cfg ev then
    match loadResult with
    | some ca' => ca'
    | none => ca
  else ca

/-- A supported public key: RSA when `isRsa`, ECDSA otherwise.  Ranges
over exactly the two key families the controller signs for. -/
def mkKey (isRsa : Bool) (id : Nat) : PublicKey :=
  if isRsa then .rsa id else .ec id

/-- The status of a PCR that has not been signed yet. -/
def emptyStatus : PCRStatus :=
  { certificateChain := "", notBefore := none, notAfter := none,
    beginRefreshAt := none, conditions := [] }

/-- A not-yet-signed PCR with the given spec. -/
def freshPCR (spec : PCRSpec) : PCR :=
  { spec := spec, status := emptyStatus }

/-- An environment in which every external call succeeds: the parser
returns `parsedKey`, certificate creation returns `sign template key`,
and both status-write paths are accepted by the store. -/
def successEnv (parsedKey : PublicKey)
    (sign : CertTemplate → PublicKey → List Nat) (pem : List Nat → String)
    (now : Int) (serial : Nat) : ReconcileEnv :=
  { parseKey := fun _ => some parsedKey
    createCertificate := fun t k => some (sign t k)
    pemEncodeCertificate := pem
    now := now
    serialNumber := serial
    successWriteAttempts := fun _ => .success
    failedWriteOutcome := .success }

/-- The status written on the success path (controller.go lines
175-196). -/
def issuedStatus (t : Timings) (certPEM : String) (now : Int) : PCRStatus :=
  { certificateChain := certPEM
    notBefore := some t.notBefore
    notAfter := some t.notAfter
    beginRefreshAt := some t.beginRefreshAt
    conditions :=
      [{ type := "Issued", status := true, reason := "IssuedByGoController",
         message := "Signed by NovoG93 Signer Controller",
         lastTransitionTime := now }] }

theorem reconcile_success_run (config : Option Config) (spec : PCRSpec)
    (isRsa : Bool) (kid : Nat) (sign : CertTemplate → PublicKey → List Nat)
    (pem : List Nat → String) (now : Int) (serial : Nat) :
    reconcile spec.signerName config true
        (successEnv (mkKey isRsa kid) sign pem now serial) (freshPCR spec) =
      (let t := computeTimings config spec.maxExpirationSeconds now
      let template := buildTemplate spec.podName serial t (mkKey isRsa kid)
      let st := issuedStatus t (pem (sign template (mkKey isRsa kid))) now
      { result := { requeue := false }, error := none,
        pcr := { spec := spec, status := st },
        statusWriteAttempts := 1, persistedWrites := [st],
        templateUsed := some (template, mkKey isRsa kid),
        signAttempted := true, failedCounterIncrements := [],
        issuedCounterIncrements := [toString t.validity] }) := by
  cases isRsa <;>
    simp [reconcile, validityLabel, successEnv, freshPCR, emptyStatus,
      mkKey, issuedStatus, retryOnConflict, retryLoop, defaultRetrySteps]

theorem string_length_pos_of_ne_empty (s : String) (h : s ≠ "") :
    0 < s.length := by
  cases s with
  | mk data =>
    cases data with
    | nil => exact absurd rfl h
    | cons c cs => simp [String.length]

/-- Both terminal filters of `Reconcile` (signer-name mismatch,
certificate chain already present) return without touching the request,
without signing, and without any status write. -/
theorem reconcile_noop_of_filtered (signerName : String)
    (config : Option Config) (caInit : Bool) (env : ReconcileEnv) (pcr : PCR)
    (h : pcr.spec.signerName ≠ signerName ∨ pcr.status.certificateChain ≠ "") :
    reconcile signerName config caInit env pcr =
      { result := { requeue := false }, error := none, pcr := pcr,
        statusWriteAttempts := 0, persistedWrites := [], templateUsed := none,
        signAttempted := false, failedCounterIncrements := [],
        issuedCounterIncrements := [] } := by
  unfold reconcile
  by_cases hs : pcr.spec.signerName = signerName
  · rcases h with h | h
    · exact absurd hs h
    · have hl : 0 < pcr.status.certificateChain.length :=
        string_length_pos_of_ne_empty _ h
      simp [hs, hl]
  · simp [hs]

theorem retryLoop_attempts_le (f : Nat → UpdateOutcome) :
    ∀ (n i : Nat), (retryLoop f n i).2 ≤ n := by
  intro n
  induction n with
  | zero => intro i; simp [retryLoop]
  | succ m ih =>
      intro i
      simp only [retryLoop]
      cases f i <;> simp [Nat.succ_le_succ (ih (i + 1))]

theorem beNat_foldl (a : Nat) (bs : List Nat) :
    bs.foldl (fun acc b => acc * 256 + b) a = a * 256 ^ bs.length + beNat bs := by
  induction bs generalizing a with
  | nil => simp [beNat]
  | cons b bs ih =>
      have hb : beNat (b :: bs) = b * 256 ^ bs.length + beNat bs := by
        show List.foldl _ (0 * 256 + b) bs = _
        rw [ih]
        ring_nf
      simp only [List.foldl_cons, List.length_cons]
      rw [ih, hb, pow_succ]
      ring

theorem beNat_cons (b : Nat) (bs : List Nat) :
    beNat (b :: bs) = b * 256 ^ bs.length + beNat bs := by
  show List.foldl _ (0 * 256 + b) bs = _
  rw [beNat_foldl]
  ring_nf

theorem padBE_length (w n : Nat) : (padBE w n).length = w := by
  simp [padBE]

theorem padBE_succ (w n : Nat) :
    padBE (w + 1) n = (n / 256 ^ w % 256) :: padBE w n := by
  simp [padBE, List.range_succ]

theorem beNat_padBE (w n : Nat) : beNat (padBE w n) = n % 256 ^ w := by
  induction w with
  | zero => simp [padBE, beNat, Nat.mod_one]
  | succ w ih =>
      rw [padBE_succ, beNat_cons, padBE_length, ih, pow_succ, Nat.mod_mul]
      ring

/-- C1: for every issuance, the validity used is the configured validity
floored at 1 hour (`max(configured, 1h)`) and only afterwards capped by
`maxExpirationSeconds` when that is set and smaller, so the issued
`notAfter - notBefore` equals `max(configured, 1h)` when no cap applies
and `maxExpirationSeconds` (in nanoseconds) whenever the cap is smaller;
the status fields written on the success path carry exactly these
timings, and a client can still obtain a validity below 1 hour (e.g.
`maxExpirationSeconds = 60`). -/
theorem validity_floor_applied_before_cap :
    (∀ (config : Option Config) (maxExp : Option Int) (now : Int),
      (computeTimings config maxExp now).notAfter
          - (computeTimings config maxExp now).notBefore
        = match maxExp with
          | some m =>
              if m * nsPerSecond < max (configuredValidity config) hourNs
              then m * nsPerSecond else max (configuredValidity config) hourNs
          | none => max (configuredValidity config) hourNs) ∧
    (∀ (config : Option Config) (spec : PCRSpec) (isRsa : Bool) (kid : Nat)
        (sign : CertTemplate → PublicKey → List Nat) (pem : List Nat → String)
        (now : Int) (serial : Nat),
      (reconcile spec.signerName config true
            (successEnv (mkKey isRsa kid) sign pem now serial)
            (freshPCR spec)).pcr.status.notBefore
          = some (computeTimings config spec.maxExpirationSeconds now).notBefore
      ∧ (reconcile spec.signerName config true
            (successEnv (mkKey isRsa kid) sign pem now serial)
            (freshPCR spec)).pcr.status.notAfter
          = some (computeTimings config spec.maxExpirationSeconds now).notAfter) ∧
    ((computeTimings none (some 60) 0).notAfter
        - (computeTimings none (some 60) 0).notBefore < hourNs) := by
  refine ⟨?_, ?_, ?_⟩
  · intro config maxExp now
    cases config with
    | none =>
        cases maxExp <;>
          simp only [computeTimings, configuredValidity, hourNs, halfHourNs,
            nsPerSecond] <;> split_ifs <;> omega
    | some c =>
        cases maxExp <;>
          simp only [computeTimings, configuredValidity, hourNs, halfHourNs,
            nsPerSecond] <;> split_ifs <;> omega
  · intro config spec isRsa kid sign pem now serial
    rw [reconcile_success_run]
    simp [issuedStatus]
  · decide

/-- The concrete request of the C2 counterexample: a matching signer
name, a well-formed key, and `maxExpirationSeconds = -1`. -/
def cexSpec : PCRSpec :=
  { signerName := "novog93.ghcr/signer", podName := "p", nodeName := "n",
    pkixPublicKey := [0], proofOfPossession := "",
    maxExpirationSeconds := some (-1) }

/-- The C2 counterexample reconciliation: default configuration,
initialized CA, all external calls succeeding, clock at 0. -/
def cexRun : ReconcileResult :=
  reconcile cexSpec.signerName none true
    (successEnv (mkKey true 0) (fun _ _ => [1]) (fun _ => "PEM") 0 1)
    (freshPCR cexSpec)

/-- C2 counterexample: an issuance that succeeds with
`maxExpirationSeconds = -1` (default configured validity 1h and refresh
lead 30m) writes `beginRefreshAt = notBefore = 0` but
`notAfter = -1000000000 ns`, so the issued timing fields violate
`beginRefreshAt ≤ notAfter`. -/
theorem refresh_bounds_counterexample :
    cexRun.error = none ∧ cexRun.pcr.status.certificateChain = "PEM"
      ∧ cexRun.pcr.status.notBefore = some 0
      ∧ cexRun.pcr.status.beginRefreshAt = some 0
      ∧ cexRun.pcr.status.notAfter = some (-1000000000)
      ∧ ¬ ((0 : Int) ≤ -1000000000) := by
  have h := reconcile_success_run none cexSpec true 0 (fun _ _ => [1])
    (fun _ => "PEM") 0 1
  unfold cexRun
  rw [h]
  refine ⟨rfl, rfl, ?_, ?_, ?_, by decide⟩ <;> simp [issuedStatus] <;> decide

set_option maxHeartbeats 2000000 in
/-- C2 amended: for every configured refresh lead and configured
validity, the effective refresh lead is `max(configured, 30m)` and
`beginRefreshAt` is `notAfter` minus that lead, clamped up to
`notBefore`; `notBefore ≤ beginRefreshAt` always holds, and
`beginRefreshAt ≤ notAfter` holds whenever the request's
`maxExpirationSeconds` is unset or nonnegative (a negative value
produces `beginRefreshAt = notBefore > notAfter`, see the
counterexample).  The success-path status write carries exactly the
computed `beginRefreshAt`. -/
theorem refresh_floor_and_bounds_amended :
    (∀ (config : Option Config) (maxExp : Option Int) (now : Int),
      (computeTimings config maxExp now).refreshBefore
          = max (configuredRefreshBefore config) halfHourNs
      ∧ (computeTimings config maxExp now).beginRefreshAt
          = max (computeTimings config maxExp now).notBefore
              ((computeTimings config maxExp now).notAfter
                - (computeTimings config maxExp now).refreshBefore)
      ∧ (computeTimings config maxExp now).notBefore
          ≤ (computeTimings config maxExp now).beginRefreshAt) ∧
    (∀ (config : Option Config) (maxExpSec : Option Nat) (now : Int),
      (computeTimings config (maxExpSec.map (Nat.cast : Nat → Int)) now).notBefore
          ≤ (computeTimings config (maxExpSec.map (Nat.cast : Nat → Int)) now).beginRefreshAt
      ∧ (computeTimings config (maxExpSec.map (Nat.cast : Nat → Int)) now).beginRefreshAt
          ≤ (computeTimings config (maxExpSec.map (Nat.cast : Nat → Int)) now).notAfter) ∧
    (∀ (config : Option Config) (spec : PCRSpec) (isRsa : Bool) (kid : Nat)
        (sign : CertTemplate → PublicKey → List Nat) (pem : List Nat → String)
        (now : Int) (serial : Nat),
      (reconcile spec.signerName config true
            (successEnv (mkKey isRsa kid) sign pem now serial)
            (freshPCR spec)).pcr.status.beginRefreshAt
          = some (computeTimings config spec.maxExpirationSeconds now).beginRefreshAt) := by
  refine ⟨?_, ?_, ?_⟩
  · intro config maxExp now
    cases config <;> cases maxExp <;>
      simp only [computeTimings, configuredRefreshBefore, hourNs, halfHourNs,
        nsPerSecond] <;>
      split_ifs <;> refine ⟨?_, ?_, ?_⟩ <;> omega
  · intro config maxExpSec now
    cases config <;> cases maxExpSec <;>
      simp only [computeTimings, Option.map, hourNs, halfHourNs, nsPerSecond] <;>
      split_ifs <;> refine ⟨?_, ?_⟩ <;> omega
  · intro config spec isRsa kid sign pem now serial
    rw [reconcile_success_run]
    simp [issuedStatus]

/-- C3: once `status.certificateChain` is non-empty the request is
terminal — a reconciliation performs no signing and no status write and
returns the request byte-identical, and any sequence of further
reconciliations (under any configuration and environment) leaves it
unchanged. -/
theorem already_issued_never_resigned (pcr : PCR)
    (h : pcr.status.certificateChain ≠ "") :
    (∀ (signerName : String) (config : Option Config) (caInit : Bool)
        (env : ReconcileEnv),
      (reconcile signerName config caInit env pcr).pcr = pcr
      ∧ (reconcile signerName config caInit env pcr).statusWriteAttempts = 0
      ∧ (reconcile signerName config caInit env pcr).persistedWrites = []
      ∧ (reconcile signerName config caInit env pcr).signAttempted = false
      ∧ (reconcile signerName config caInit env pcr).error = none
      ∧ (reconcile signerName config caInit env pcr).result = { requeue := false }) ∧
    (∀ steps : List ReconcileParams, reconcileIter steps pcr = pcr) := by
  have key : ∀ (signerName : String) (config : Option Config) (caInit : Bool)
      (env : ReconcileEnv),
      reconcile signerName config caInit env pcr =
        { result := { requeue := false }, error := none, pcr := pcr,
          statusWriteAttempts := 0, persistedWrites := [], templateUsed := none,
          signAttempted := false, failedCounterIncrements := [],
          issuedCounterIncrements := [] } :=
    fun sn c ca env => reconcile_noop_of_filtered sn c ca env pcr (Or.inr h)
  refine ⟨fun sn c ca env => ?_, ?_⟩
  · rw [key sn c ca env]
    exact ⟨rfl, rfl, rfl, rfl, rfl, rfl⟩
  · intro steps
    induction steps with
    | nil => rfl
    | cons s ss ih =>
        have h1 : (reconcile s.signerName s.config s.caInitialized s.env pcr).pcr
            = pcr := by
          rw [key s.signerName s.config s.caInitialized s.env]
        simp only [reconcileIter, List.foldl_cons] at ih ⊢
        rw [h1]
        exact ih

/-- An environment for witness instances; its external calls all fail or
return fixed values (the filtered paths never consult it). -/
def dummyEnv : ReconcileEnv :=
  { parseKey := fun _ => none
    createCertificate := fun _ _ => none
    pemEncodeCertificate := fun _ => ""
    now := 0
    serialNumber := 0
    successWriteAttempts := fun _ => .success
    failedWriteOutcome := .success }

/-- A request that has already been issued a certificate. -/
def signedPCR : PCR :=
  { spec := { signerName := "novog93.ghcr/signer", podName := "p",
              nodeName := "n", pkixPublicKey := [0], proofOfPossession := "",
              maxExpirationSeconds := none }
    status := { certificateChain := "CERT", notBefore := some 0,
                notAfter := some 3600000000000, beginRefreshAt := some 1800000000000,
                conditions := [] } }

/-- Witness for C3 at a concrete already-signed request: one and two
further reconciliations leave it unchanged. -/
theorem already_issued_never_resigned_witness :
    (reconcile "novog93.ghcr/signer" none true dummyEnv signedPCR).pcr = signedPCR
      ∧ reconcileIter
          [{ signerName := "novog93.ghcr/signer", config := none,
             caInitialized := true, env := dummyEnv },
           { signerName := "other", config := none,
             caInitialized := false, env := dummyEnv }] signedPCR = signedPCR :=
  ⟨((already_issued_never_resigned signedPCR (by decide)).1
      "novog93.ghcr/signer" none true dummyEnv).1,
    (already_issued_never_resigned signedPCR (by decide)).2 _⟩

/-- C8: a request whose `spec.signerName` differs from the configured
signer name is left completely untouched: no status write, no
conditions, no certificate, no error, and the in-memory resource is
returned byte-identical. -/
theorem signer_mismatch_untouched (signerName : String) (pcr : PCR)
    (h : pcr.spec.signerName ≠ signerName) :
    ∀ (config : Option Config) (caInit : Bool) (env : ReconcileEnv),
      (reconcile signerName config caInit env pcr).pcr = pcr
      ∧ (reconcile signerName config caInit env pcr).statusWriteAttempts = 0
      ∧ (reconcile signerName config caInit env pcr).persistedWrites = []
      ∧ (reconcile signerName config caInit env pcr).signAttempted = false
      ∧ (reconcile signerName config caInit env pcr).error = none
      ∧ (reconcile signerName config caInit env pcr).result = { requeue := false } := by
  intro config caInit env
  rw [reconcile_noop_of_filtered signerName config caInit env pcr (Or.inl h)]
  exact ⟨rfl, rfl, rfl, rfl, rfl, rfl⟩

/-- Witness for C8: a fresh unsigned request addressed to a different
signer is returned untouched. -/
theorem signer_mismatch_untouched_witness :
    (reconcile "novog93.ghcr/signer" none true dummyEnv
        (freshPCR { signerName := "example.com/other-signer", podName := "p",
                    nodeName := "n", pkixPublicKey := [0],
                    proofOfPossession := "", maxExpirationSeconds := none })).pcr
      = freshPCR { signerName := "example.com/other-signer", podName := "p",
                   nodeName := "n", pkixPublicKey := [0],
                   proofOfPossession := "", maxExpirationSeconds := none } :=
  (signer_mismatch_untouched "novog93.ghcr/signer" _ (by decide) none true
    dummyEnv).1

/-- An environment whose external calls all succeed but whose
success-path status writes behave as `f` says attempt by attempt. -/
def writeEnv (parsedKey : PublicKey)
    (sign : CertTemplate → PublicKey → List Nat) (pem : List Nat → String)
    (now : Int) (serial : Nat) (f : Nat → UpdateOutcome)
    (fw : UpdateOutcome) : ReconcileEnv :=
  { parseKey := fun _ => some parsedKey
    createCertificate := fun t k => some (sign t k)
    pemEncodeCertificate := pem
    now := now
    serialNumber := serial
    successWriteAttempts := f
    failedWriteOutcome := fw }

theorem reconcile_conflict_run (config : Option Config) (spec : PCRSpec)
    (isRsa : Bool) (kid : Nat) (sign : CertTemplate → PublicKey → List Nat)
    (pem : List Nat → String) (now : Int) (serial : Nat) (fw : UpdateOutcome) :
    reconcile spec.signerName config true
        (writeEnv (mkKey isRsa kid) sign pem now serial (fun _ => .conflict) fw)
        (freshPCR spec) =
      (let t := computeTimings config spec.maxExpirationSeconds now
      let template := buildTemplate spec.podName serial t (mkKey isRsa kid)
      let st := issuedStatus t (pem (sign template (mkKey isRsa kid))) now
      { result := { requeue := true }, error := some .conflict,
        pcr := { spec := spec, status := st },
        statusWriteAttempts := 5, persistedWrites := [],
        templateUsed := some (template, mkKey isRsa kid),
        signAttempted := true, failedCounterIncrements := [],
        issuedCounterIncrements := [] }) := by
  cases isRsa <;>
    simp [reconcile, validityLabel, writeEnv, freshPCR, emptyStatus,
      mkKey, issuedStatus, retryOnConflict, retryLoop, defaultRetrySteps]

/-- C5 counterexample: with the status store at resource version 2 and
the reconciler's in-memory object holding the version 1 it fetched
before a conflicting concurrent update, the attempt closure the code
hands to `RetryOnConflict` resubmits the same stale object on every
retry (it is a constant function of the attempt index), so all 5
attempts conflict and the write is never persisted — whereas an attempt
sequence that retries "with the freshest resource version" (the claim's
words, `freshAttempts`) persists the write on its second attempt. -/
theorem conflict_retry_stale_counterexample :
    retryOnConflict (codeAttempts ⟨2⟩ 1) = (some .conflict, 5)
      ∧ retryOnConflict (freshAttempts ⟨2⟩ 1) = (none, 2)
      ∧ codeAttempts ⟨2⟩ 1 4 = .conflict
      ∧ freshAttempts ⟨2⟩ 1 1 = .success := by
  refine ⟨rfl, rfl, rfl, rfl⟩

/-- C5 amended: on an optimistic-concurrency conflict the success-path
status write is retried up to `retry.DefaultRetry`'s 5 attempts, but
each retry resubmits the same in-memory object with the stale captured
resource version (not a refreshed one), so a persistent version mismatch
conflicts on all 5 attempts; `Reconcile` then returns `Requeue = true`
together with the conflict error rather than dropping the write
silently, and an attempt sequence whose conflicts stop within the
budget succeeds with no error. -/
theorem conflict_retry_bounded_stale_requeue :
    (∀ (store : Store) (rv : Nat) (i j : Nat),
      codeAttempts store rv i = codeAttempts store rv j) ∧
    (∀ (store : Store) (rv : Nat), rv ≠ store.version →
      retryOnConflict (codeAttempts store rv) = (some .conflict, 5)) ∧
    (∀ f : Nat → UpdateOutcome, (retryOnConflict f).2 ≤ defaultRetrySteps) ∧
    (∀ k : Fin defaultRetrySteps,
      retryOnConflict (fun i => if i < (k : Nat) then .conflict else .success)
        = (none, (k : Nat) + 1)) ∧
    (∀ (config : Option Config) (spec : PCRSpec) (isRsa : Bool) (kid : Nat)
        (sign : CertTemplate → PublicKey → List Nat) (pem : List Nat → String)
        (now : Int) (serial : Nat) (fw : UpdateOutcome),
      (reconcile spec.signerName config true
            (writeEnv (mkKey isRsa kid) sign pem now serial
              (fun _ => .conflict) fw) (freshPCR spec)).result.requeue = true
      ∧ (reconcile spec.signerName config true
            (writeEnv (mkKey isRsa kid) sign pem now serial
              (fun _ => .conflict) fw) (freshPCR spec)).error = some .conflict
      ∧ (reconcile spec.signerName config true
            (writeEnv (mkKey isRsa kid) sign pem now serial
              (fun _ => .conflict) fw) (freshPCR spec)).statusWriteAttempts = 5
      ∧ (reconcile spec.signerName config true
            (writeEnv (mkKey isRsa kid) sign pem now serial
              (fun _ => .conflict) fw) (freshPCR spec)).persistedWrites = []) := by
  refine ⟨fun store rv i j => rfl, ?_, ?_, ?_, ?_⟩
  · intro store rv h
    have hc : updateWith store rv = .conflict := by
      simp [updateWith, h]
    simp [retryOnConflict, retryLoop, defaultRetrySteps, codeAttempts, hc]
  · intro f
    exact retryLoop_attempts_le f defaultRetrySteps 0
  · intro k
    fin_cases k <;> rfl
  · intro config spec isRsa kid sign pem now serial fw
    rw [reconcile_conflict_run]
    exact ⟨rfl, rfl, rfl, rfl⟩

/-- Witness for the amended C5 theorem: the persistent-conflict part at
the concrete store/version pair (2, 1). -/
theorem conflict_retry_bounded_stale_requeue_witness :
    retryOnConflict (codeAttempts ⟨2⟩ 1) = (some .conflict, 5) :=
  conflict_retry_bounded_stale_requeue.2.1 ⟨2⟩ 1 (by decide)

/-- C6: every issued certificate's template gives an RSA-keyed request
`KeyUsage = digitalSignature ||| keyEncipherment` (so it contains both
bits), an elliptic-curve-keyed request `KeyUsage = digitalSignature`
only, and both `ExtKeyUsage = [clientAuth, serverAuth]`. -/
theorem key_usage_by_key_family :
    ∀ (config : Option Config) (spec : PCRSpec) (isRsa : Bool) (kid : Nat)
      (sign : CertTemplate → PublicKey → List Nat) (pem : List Nat → String)
      (now : Int) (serial : Nat),
      (reconcile spec.signerName config true
            (successEnv (mkKey isRsa kid) sign pem now serial)
            (freshPCR spec)).templateUsed
          = some (buildTemplate spec.podName serial
              (computeTimings config spec.maxExpirationSeconds now)
              (mkKey isRsa kid), mkKey isRsa kid)
      ∧ (buildTemplate spec.podName serial
            (computeTimings config spec.maxExpirationSeconds now)
            (mkKey isRsa kid)).keyUsage
          = (if isRsa then keyUsageDigitalSignature ||| keyUsageKeyEncipherment
             else keyUsageDigitalSignature)
      ∧ (buildTemplate spec.podName serial
            (computeTimings config spec.maxExpirationSeconds now)
            (mkKey isRsa kid)).keyUsage.testBit 0 = true
      ∧ (buildTemplate spec.podName serial
            (computeTimings config spec.maxExpirationSeconds now)
            (mkKey isRsa kid)).keyUsage.testBit 2 = isRsa
      ∧ (buildTemplate spec.podName serial
            (computeTimings config spec.maxExpirationSeconds now)
            (mkKey isRsa kid)).extKeyUsage
          = [extKeyUsageClientAuth, extKeyUsageServerAuth] := by
  intro config spec isRsa kid sign pem now serial
  refine ⟨?_, ?_, ?_, ?_, ?_⟩
  · rw [reconcile_success_run]
  all_goals
    cases isRsa <;>
      simp [buildTemplate, mkKey, PublicKey.isRSA, keyUsageDigitalSignature,
        keyUsageKeyEncipherment] <;> decide

theorem computeTimings_nonpos_cap (config : Option Config) (m : Nat) (now : Int) :
    (computeTimings config (some (-(m : Int))) now).validity
        = -(m : Int) * nsPerSecond
      ∧ (computeTimings config (some (-(m : Int))) now).notBefore = now
      ∧ (computeTimings config (some (-(m : Int))) now).notAfter
          = now + -(m : Int) * nsPerSecond
      ∧ (computeTimings config (some (-(m : Int))) now).beginRefreshAt = now := by
  cases config <;> refine ⟨?_, ?_, ?_, ?_⟩ <;>
    simp only [computeTimings, hourNs, halfHourNs, nsPerSecond] <;>
    split_ifs <;> omega

/-- C9: a request whose `maxExpirationSeconds` is zero or negative is
still processed to issuance: the cap is applied with no lower bound, so
the effective validity is exactly that non-positive duration,
`notAfter = notBefore + maxExpirationSeconds·1s ≤ notBefore` (the
certificate is expired at issuance), and `beginRefreshAt` is clamped to
`notBefore`. -/
theorem nonpositive_cap_still_issues (config : Option Config) (spec : PCRSpec)
    (m : Nat) (hm : spec.maxExpirationSeconds = some (-(m : Int)))
    (isRsa : Bool) (kid : Nat) (sign : CertTemplate → PublicKey → List Nat)
    (pem : List Nat → String) (now : Int) (serial : Nat) :
    (reconcile spec.signerName config true
          (successEnv (mkKey isRsa kid) sign pem now serial)
          (freshPCR spec)).error = none
      ∧ (reconcile spec.signerName config true
            (successEnv (mkKey isRsa kid) sign pem now serial)
            (freshPCR spec)).issuedCounterIncrements.length = 1
      ∧ (computeTimings config spec.maxExpirationSeconds now).validity
          = -(m : Int) * nsPerSecond
      ∧ (reconcile spec.signerName config true
            (successEnv (mkKey isRsa kid) sign pem now serial)
            (freshPCR spec)).pcr.status.notBefore = some now
      ∧ (reconcile spec.signerName config true
            (successEnv (mkKey isRsa kid) sign pem now serial)
            (freshPCR spec)).pcr.status.notAfter
          = some (now + -(m : Int) * nsPerSecond)
      ∧ now + -(m : Int) * nsPerSecond ≤ now
      ∧ (reconcile spec.signerName config true
            (successEnv (mkKey isRsa kid) sign pem now serial)
            (freshPCR spec)).pcr.status.beginRefreshAt = some now := by
  have ht := computeTimings_nonpos_cap config m now
  rw [reconcile_success_run]
  refine ⟨rfl, rfl, ?_, ?_, ?_, ?_, ?_⟩ <;>
    simp [issuedStatus, hm, ht.1, ht.2.1, ht.2.2.1, ht.2.2.2]
  have : (0 : Int) ≤ (m : Int) * nsPerSecond := by
    have : (0 : Int) ≤ nsPerSecond := by decide
    positivity
  omega

/-- Witness for C9 at `maxExpirationSeconds = -1` (the counterexample
request of C2): the issuance succeeds and writes an already-expired
certificate window. -/
theorem nonpositive_cap_still_issues_witness :
    (reconcile cexSpec.signerName none true
          (successEnv (mkKey true 0) (fun _ _ => [1]) (fun _ => "PEM") 0 1)
          (freshPCR cexSpec)).error = none
      ∧ (computeTimings none cexSpec.maxExpirationSeconds 0).validity
          = -(1 : Int) * nsPerSecond
      ∧ (0 : Int) + -(1 : Int) * nsPerSecond ≤ 0 := by
  have h := nonpositive_cap_still_issues none cexSpec 1 (by decide) true 0
    (fun _ _ => [1]) (fun _ => "PEM") 0 1
  exact ⟨h.1, h.2.2.1, h.2.2.2.2.2.1⟩

/-- C10: on every validation or signing failure the `Issued=False`
condition is written by a single unretried status update whose outcome
(`fw`, universally quantified) does not influence anything the
reconciler does afterwards: the reason-labelled failure counter is
incremented exactly once and the originating error is returned whether
or not the condition write was persisted (`persistedWrites` is empty
whenever the write did not succeed). -/
theorem failed_condition_single_unretried_write :
    (∀ (config : Option Config) (spec : PCRSpec) (caInit : Bool)
        (create : CertTemplate → PublicKey → Option (List Nat))
        (pem : List Nat → String) (now : Int) (serial : Nat)
        (sw : Nat → UpdateOutcome) (fw : UpdateOutcome),
      let env : ReconcileEnv :=
        { parseKey := fun _ => none, createCertificate := create,
          pemEncodeCertificate := pem, now := now, serialNumber := serial,
          successWriteAttempts := sw, failedWriteOutcome := fw }
      (reconcile spec.signerName config caInit env (freshPCR spec)).statusWriteAttempts = 1
      ∧ (reconcile spec.signerName config caInit env (freshPCR spec)).error
          = some .parsePublicKey
      ∧ (reconcile spec.signerName config caInit env (freshPCR spec)).result
          = { requeue := false }
      ∧ (reconcile spec.signerName config caInit env (freshPCR spec)).failedCounterIncrements
          = ["InvalidPublicKey"]
      ∧ (reconcile spec.signerName config caInit env (freshPCR spec)).persistedWrites.length
          = (if fw = .success then 1 else 0)
      ∧ (reconcile spec.signerName config caInit env (freshPCR spec)).signAttempted
          = false) ∧
    (∀ (config : Option Config) (spec : PCRSpec) (caInit : Bool) (kid : Nat)
        (create : CertTemplate → PublicKey → Option (List Nat))
        (pem : List Nat → String) (now : Int) (serial : Nat)
        (sw : Nat → UpdateOutcome) (fw : UpdateOutcome),
      let env : ReconcileEnv :=
        { parseKey := fun _ => some (.other kid), createCertificate := create,
          pemEncodeCertificate := pem, now := now, serialNumber := serial,
          successWriteAttempts := sw, failedWriteOutcome := fw }
      (reconcile spec.signerName config caInit env (freshPCR spec)).statusWriteAttempts = 1
      ∧ (reconcile spec.signerName config caInit env (freshPCR spec)).error
          = some .unsupportedKeyType
      ∧ (reconcile spec.signerName config caInit env (freshPCR spec)).failedCounterIncrements
          = ["UnsupportedKeyType"]
      ∧ (reconcile spec.signerName config caInit env (freshPCR spec)).persistedWrites.length
          = (if fw = .success then 1 else 0)) ∧
    (∀ (config : Option Config) (spec : PCRSpec) (isRsa : Bool) (kid : Nat)
        (create : CertTemplate → PublicKey → Option (List Nat))
        (pem : List Nat → String) (now : Int) (serial : Nat)
        (sw : Nat → UpdateOutcome) (fw : UpdateOutcome),
      let env : ReconcileEnv :=
        { parseKey := fun _ => some (mkKey isRsa kid), createCertificate := create,
          pemEncodeCertificate := pem, now := now, serialNumber := serial,
          successWriteAttempts := sw, failedWriteOutcome := fw }
      (reconcile spec.signerName config false env (freshPCR spec)).statusWriteAttempts = 1
      ∧ (reconcile spec.signerName config false env (freshPCR spec)).error
          = some .caNotInitialized
      ∧ (reconcile spec.signerName config false env (freshPCR spec)).failedCounterIncrements
          = ["SigningFailed"]
      ∧ (reconcile spec.signerName config false env (freshPCR spec)).persistedWrites.length
          = (if fw = .success then 1 else 0)) ∧
    (∀ (config : Option Config) (spec : PCRSpec) (isRsa : Bool) (kid : Nat)
        (pem : List Nat → String) (now : Int) (serial : Nat)
        (sw : Nat → UpdateOutcome) (fw : UpdateOutcome),
      let env : ReconcileEnv :=
        { parseKey := fun _ => some (mkKey isRsa kid),
          createCertificate := fun _ _ => none,
          pemEncodeCertificate := pem, now := now, serialNumber := serial,
          successWriteAttempts := sw, failedWriteOutcome := fw }
      (reconcile spec.signerName config true env (freshPCR spec)).statusWriteAttempts = 1
      ∧ (reconcile spec.signerName config true env (freshPCR spec)).error
          = some .signingFailed
      ∧ (reconcile spec.signerName config true env (freshPCR spec)).failedCounterIncrements
          = ["SigningFailed"]
      ∧ (reconcile spec.signerName config true env (freshPCR spec)).persistedWrites.length
          = (if fw = .success then 1 else 0)
      ∧ (reconcile spec.signerName config true env (freshPCR spec)).signAttempted
          = true) := by
  refine ⟨?_, ?_, ?_, ?_⟩
  · intro config spec caInit create pem now serial sw fw
    refine ⟨?_, ?_, ?_, ?_, ?_, ?_⟩ <;>
      simp [reconcile, setFailedConditionResult, freshPCR, emptyStatus] <;>
      cases fw <;> simp
  · intro config spec caInit kid create pem now serial sw fw
    refine ⟨?_, ?_, ?_, ?_⟩ <;>
      simp [reconcile, setFailedConditionResult, freshPCR, emptyStatus] <;>
      cases fw <;> simp
  · intro config spec isRsa kid create pem now serial sw fw
    cases isRsa <;>
      refine ⟨?_, ?_, ?_, ?_⟩ <;>
      simp [reconcile, setFailedConditionResult, freshPCR, emptyStatus, mkKey] <;>
      cases fw <;> simp
  · intro config spec isRsa kid pem now serial sw fw
    cases isRsa <;>
      refine ⟨?_, ?_, ?_, ?_, ?_⟩ <;>
      simp [reconcile, setFailedConditionResult, freshPCR, emptyStatus, mkKey] <;>
      cases fw <;> simp

/-- C4: the proof-of-possession verifier hashes the raw DER public-key
bytes with SHA-256; it rejects a zero-length proof as the empty-proof
error before anything else, rejects input the base64 decoder refuses
with the decode error, rejects a key that is neither RSA nor
elliptic-curve as unsupported, verifies an RSA signature as PKCS#1 v1.5
over the digest (failing with the RSA verification error when the
cryptographic check fails), and verifies an elliptic-curve signature
given as two fixed-width big-endian halves `(r, s)` each padded to the
curve's field width `w` by recovering exactly `r` and `s` (failing with
the ECDSA verification error when the check fails). -/
theorem pop_verifier_dispatch :
    (∀ (o : POPOracle) (pub : PublicKey) (bytes : List Nat),
      validateProofOfPossession o "" pub bytes = some .emptyProofOfPossession) ∧
    (∀ (o : POPOracle) (s : String) (pub : PublicKey) (bytes : List Nat),
      s ≠ "" → o.base64Decode s = none →
      validateProofOfPossession o s pub bytes = some .decodeError) ∧
    (∀ (o : POPOracle) (s : String) (bytes sig : List Nat) (kid : Nat),
      s ≠ "" → o.base64Decode s = some sig → sig ≠ [] →
      validateProofOfPossession o s (.other kid) bytes
        = some .unsupportedKeyType) ∧
    (∀ (o : POPOracle) (s : String) (bytes sig : List Nat) (k : Nat),
      s ≠ "" → o.base64Decode s = some sig → sig ≠ [] →
      validateProofOfPossession o s (.rsa k) bytes
        = (if o.rsaVerifyPKCS1v15 k (o.sha256 bytes) sig then none
           else some .rsaVerificationFailed)) ∧
    (∀ (o : POPOracle) (s : String) (bytes : List Nat) (k w r rs : Nat),
      s ≠ "" → o.base64Decode s = some (padBE w r ++ padBE w rs) →
      w ≠ 0 → r < 256 ^ w → rs < 256 ^ w →
      validateProofOfPossession o s (.ec k) bytes
        = (if o.ecdsaVerify k (o.sha256 bytes) r rs then none
           else some .ecdsaVerificationFailed)) := by
  refine ⟨?_, ?_, ?_, ?_, ?_⟩
  · intro o pub bytes
    simp [validateProofOfPossession]
  · intro o s pub bytes hs hd
    simp [validateProofOfPossession, hs, hd]
  · intro o s bytes sig kid hs hd hsig
    simp [validateProofOfPossession, hs, hd, List.length_eq_zero, hsig]
  · intro o s bytes sig k hs hd hsig
    simp [validateProofOfPossession, hs, hd, List.length_eq_zero, hsig]
  · intro o s bytes k w r rs hs hd hw hr hrs
    have hlen : (padBE w r ++ padBE w rs).length = w + w := by
      simp [padBE_length]
    have htake : (padBE w r ++ padBE w rs).take w = padBE w r := by
      have h := List.take_left (padBE w r) (padBE w rs)
      rwa [padBE_length] at h
    have hdrop : (padBE w r ++ padBE w rs).drop w = padBE w rs := by
      have h := List.drop_left (padBE w r) (padBE w rs)
      rwa [padBE_length] at h
    have hne : ¬ (padBE w r ++ padBE w rs).length = 0 := by
      rw [hlen]; omega
    have heven : (padBE w r ++ padBE w rs).length % 2 = 0 := by
      rw [hlen]; omega
    have hhalf : (padBE w r ++ padBE w rs).length / 2 = w := by
      rw [hlen]; omega
    simp only [validateProofOfPossession, hs, hd, if_neg hs, hne, heven,
      hhalf, htake, hdrop, beNat_padBE, Nat.mod_eq_of_lt hr,
      Nat.mod_eq_of_lt hrs]
    simp

/-- A concrete oracle pack for the C4 witness: `"x"` decodes to the
one-byte signature `[7]`, `"e"` decodes to a padded `(3, 4)` ECDSA
signature with field width 1, everything else fails to decode; both
cryptographic checks accept exactly the expected inputs. -/
def witOracle : POPOracle :=
  { base64Decode := fun s =>
      if s = "x" then some [7]
      else if s = "e" then some (padBE 1 3 ++ padBE 1 4)
      else none
    sha256 := fun _ => [0]
    rsaVerifyPKCS1v15 := fun _ _ sig => sig = [7]
    ecdsaVerify := fun _ _ r s => r = 3 ∧ s = 4 }

/-- Witness for C4: each dispatch case of the verifier evaluated at a
concrete oracle, proof string, and key. -/
theorem pop_verifier_dispatch_witness :
    validateProofOfPossession witOracle "" (.rsa 0) [] = some .emptyProofOfPossession
      ∧ validateProofOfPossession witOracle "zz" (.rsa 0) [] = some .decodeError
      ∧ validateProofOfPossession witOracle "x" (.other 0) [] = some .unsupportedKeyType
      ∧ validateProofOfPossession witOracle "x" (.rsa 5) [9] = none
      ∧ validateProofOfPossession witOracle "e" (.ec 2) [] = none := by
  refine ⟨pop_verifier_dispatch.1 witOracle (.rsa 0) [], ?_, ?_, ?_, ?_⟩
  · exact pop_verifier_dispatch.2.1 witOracle "zz" (.rsa 0) [] (by decide)
      (by simp [witOracle])
  · exact pop_verifier_dispatch.2.2.1 witOracle "x" [] [7] 0 (by decide)
      (by simp [witOracle]) (by decide)
  · have h := pop_verifier_dispatch.2.2.2.1 witOracle "x" [9] [7] 5 (by decide)
      (by simp [witOracle]) (by decide)
    rw [h]
    simp [witOracle]
  · have h := pop_verifier_dispatch.2.2.2.2 witOracle "e" [] 2 1 3 4 (by decide)
      (by simp [witOracle]) (by decide) (by decide) (by decide)
    rw [h]
    simp [witOracle]

/-- C7: the secret watcher's event filter passes a create or update
event exactly when the (new) object's name and namespace equal the
configured CA secret identity, is constantly `false` on delete events,
and a delete event therefore never changes the active CA. -/
theorem secret_watcher_create_update_only :
    (∀ (cfg : WatcherConfig) (o : ObjectMeta),
      secretWatcherFilter cfg (.create o) = true
        ↔ (o.name = cfg.caSecretName ∧ o.namespaceName = cfg.caSecretNamespace)) ∧
    (∀ (cfg : WatcherConfig) (oOld oNew : ObjectMeta),
      secretWatcherFilter cfg (.update oOld oNew) = true
        ↔ (oNew.name = cfg.caSecretName
            ∧ oNew.namespaceName = cfg.caSecretNamespace)) ∧
    (∀ (cfg : WatcherConfig) (o : ObjectMeta),
      secretWatcherFilter cfg (.delete o) = false) ∧
    (∀ (cfg : WatcherConfig) (loadResult : Option CAState) (ca : CAState)
        (o : ObjectMeta),
      processSecretEvent cfg loadResult ca (.delete o) = ca) := by
  refine ⟨?_, ?_, ?_, ?_⟩
  · intro cfg o
    simp [secretWatcherFilter]
  · intro cfg oOld oNew
    simp [secretWatcherFilter]
  · intro cfg o
    simp [secretWatcherFilter]
  · intro cfg loadResult ca o
    simp [processSecretEvent, secretWatcherFilter]

end Signer
